import Mathlib

/-!
Shallow embedding of the converter service (`src/main.py`).

The embedding models the conversion orchestration core:
* the static tables `SUPPORTED_MIME_TYPES` and `CONVERSION_MATRIX`,
* the command builder `get_command`,
* the request handler `process_conversion`, and the two endpoint wrappers
  `convert_file_upload` (`POST /convert`) and `convert_from_url`
  (`POST /convert-from-url`).

Filesystem and process side effects are made explicit: `process_conversion`
returns, besides its result, the ordered list of effects it performs
(workspace creation, input staging, child-process invocation, synchronous
workspace removal, and deferred removal registered as a background task on the
response).  External behaviour the handler branches on (the child process exit
code and captured output, a timeout, whether the expected output file exists
afterwards, whether writing the staged input raises) is supplied by an
`ExecEnv` oracle.

The function `shutil_rmtree` models `shutil.rmtree` (Python standard library,
default `ignore_errors=False`) over a finite filesystem, a list of existing
directory trees: removing a present path succeeds, removing an absent path
raises `FileNotFoundError`.
-/

set_option autoImplicit false

namespace ConverterService

/-- Table `SUPPORTED_MIME_TYPES` from `src/main.py` lines 29-42, as an
association list in source order.  Keys are the lowercase extensions exactly
as written. -/
def SUPPORTED_MIME_TYPES : List (String × String) :=
  [("pdf", "application/pdf"), ("txt", "text/plain"),
   ("docx", "application/vnd.openxmlformats-officedocument.wordprocessingml.document"),
   ("doc", "application/msword"),
   ("xlsx", "application/vnd.openxmlformats-officedocument.spreadsheetml.sheet"),
   ("xls", "application/vnd.ms-excel"),
   ("pptx", "application/vnd.openxmlformats-officedocument.presentationml.presentation"),
   ("ppt", "application/vnd.ms-powerpoint"),
   ("odt", "application/vnd.oasis.opendocument.text"),
   ("ods", "application/vnd.oasis.opendocument.spreadsheet"),
   ("odp", "application/vnd.oasis.opendocument.presentation"),
   ("png", "image/png"), ("jpg", "image/jpeg"), ("jpeg", "image/jpeg"),
   ("webp", "image/webp"), ("gif", "image/gif"), ("bmp", "image/bmp")]

/-- Table `CONVERSION_MATRIX` from `src/main.py` lines 44-55: (source
extension, target extension) pairs mapped to the tool name, in source
order. -/
def CONVERSION_MATRIX : List ((String × String) × String) :=
  [(("docx", "pdf"), "libreoffice"), (("doc", "pdf"), "libreoffice"),
   (("xlsx", "pdf"), "libreoffice"), (("xls", "pdf"), "libreoffice"),
   (("pptx", "pdf"), "libreoffice"), (("ppt", "pdf"), "libreoffice"),
   (("odt", "pdf"), "libreoffice"), (("ods", "pdf"), "libreoffice"),
   (("odp", "pdf"), "libreoffice"),
   (("png", "jpg"), "imagemagick"), (("png", "webp"), "imagemagick"),
   (("png", "gif"), "imagemagick"), (("png", "bmp"), "imagemagick"),
   (("jpg", "png"), "imagemagick"), (("jpg", "webp"), "imagemagick"),
   (("webp", "png"), "imagemagick"), (("webp", "jpg"), "imagemagick"),
   (("pdf", "txt"), "pdftotext"), (("pdf", "png"), "imagemagick")]

/-- Model of Python `str.split(sep)` for a one-character separator, on the
character list: always returns at least one (possibly empty) group, so
`"README".split('.') = ["README"]` and `"".split('.') = [""]`. -/
def py_split_chars (sep : Char) : List Char → List (List Char)
  | [] => [[]]
  | c :: cs =>
    match py_split_chars sep cs with
    | [] => [[c]]
    | g :: gs => if c = sep then [] :: g :: gs else (c :: g) :: gs

/-- Model of Python `str.split(sep)` for a one-character separator. -/
def py_split (s : String) (sep : Char) : List String :=
  (py_split_chars sep s.data).map String.mk

/-- Model of Python `str.lower()` (ASCII case folding suffices for the
extension and format strings handled here). -/
def py_lower (s : String) : String :=
  String.mk (s.data.map Char.toLower)

/-- Model of Python `str.endswith(suffix)`. -/
def py_endswith (s suffix : String) : Bool :=
  suffix.data.isSuffixOf s.data

/-- Model of Python `dict.get(k)` on a string-keyed dict, as first-match
lookup in the association list. -/
def dict_get (d : List (String × String)) (k : String) : Option String :=
  (d.find? (fun e => decide (e.1 = k))).map (fun e => e.2)

/-- Lookup `CONVERSION_MATRIX.get(conversion_pair)` (`src/main.py`
line 128). -/
def matrixLookup (p : String × String) : Option String :=
  (CONVERSION_MATRIX.find? (fun e => decide (e.1 = p))).map (fun e => e.2)

/-- Model of `os.path.join(a, b)`, for the directory names used here
(absolute, no trailing separator). -/
def os_path_join (a b : String) : String := a ++ "/" ++ b

/-- Model of `os.path.basename`, for the URL paths used here: the part after
the last `/` (empty when the path ends in `/`). -/
def os_path_basename (p : String) : String :=
  ((py_split p '/').getLast?).getD ""

/-- Model of `os.path.splitext(s)[0]` for a bare file name (no separators):
everything before the last `.`, except that a `.` preceded only by dots starts
no extension (so `README` and `.bashrc` are returned whole). -/
def os_path_splitext_base (s : String) : String :=
  let cs := s.data
  match cs.reverse.findIdx? (fun c => c = '.') with
  | none => s
  | some j =>
    let i := cs.length - 1 - j
    if (cs.take i).any (fun c => c ≠ '.') then String.mk (cs.take i) else s

/-- Model of `get_command` (`src/main.py` lines 57-70): builds the argv and
expected output path for a tool.  The expected output path is
`os.path.join(temp_dir, "output." + to_format)` for every known tool; an
unknown tool yields an empty argv and no output path. -/
def get_command (tool input_path to_format temp_dir : String) :
    List String × Option String :=
  let output_path := os_path_join temp_dir ("output." ++ to_format)
  if tool = "libreoffice" then
    (["libreoffice", "--headless", "--convert-to", to_format,
      "--outdir", temp_dir, input_path], some output_path)
  else if tool = "imagemagick" then
    let input_path := if py_endswith input_path ".pdf" then input_path ++ "[0]" else input_path
    (["convert", "-density", "300", input_path, output_path], some output_path)
  else if tool = "pdftotext" then
    (["pdftotext", input_path, output_path], some output_path)
  else ([], none)

/-- Oracle for the externally determined behaviour one request observes:
the child process result (`subprocess.run`), whether the run exceeded the
120-second timeout (raising `subprocess.TimeoutExpired`), whether the expected
output file exists afterwards (`os.path.exists`), and whether staging the
input bytes raises an I/O error (`open`/`write`). -/
structure ExecEnv where
  returncode : Int
  stdout : String
  stderr : String
  timesOut : Bool
  outputExists : Bool
  writeRaises : Bool
  deriving DecidableEq

/-- One observable side effect of a request, in execution order. -/
inductive Effect where
  /-- `tempfile.mkdtemp()` created this directory. -/
  | mkdtemp (dir : String)
  /-- The input bytes were written to this path. -/
  | writeFile (path : String)
  /-- `subprocess.run` spawned a child process with this argv. -/
  | runProcess (argv : List String)
  /-- `shutil.rmtree(dir)` ran synchronously (failure path, before the error
  propagates). -/
  | rmtreeSync (dir : String)
  /-- `BackgroundTask(shutil.rmtree, dir)` was attached to the response: the
  removal runs after the response body has been delivered. -/
  | rmtreeDeferred (dir : String)
  deriving DecidableEq

/-- Result of a request: a `FileResponse` (path, media type, download
filename) or an `HTTPException` (status code, detail). -/
inductive ConvResult where
  | success (path mediaType filename : String)
  | httpError (statusCode : Nat) (detail : String)
  deriving DecidableEq

/-- Model of `process_conversion` (`src/main.py` lines 121-166).  `temp_dir`
names the directory `tempfile.mkdtemp()` would return for this request; `env`
supplies the external behaviour.  Returns the result together with the ordered
effect trace.

Notes kept faithful to the source:
* `original_filename.split('.')[-1]` never raises `IndexError` in Python
  (`str.split` always returns a non-empty list), so the
  `"El archivo no tiene extensión."` branch is modelled on the (unreachable)
  empty-split case, mirroring the dead `except IndexError` handler.
* An I/O error while staging the input (modelled by `env.writeRaises`) takes
  the `except` path: synchronous removal, then the error propagates (a plain
  `OSError`, surfaced as a 500 by the boundary).
* Had `get_command` returned `(_, None)` (unknown tool), `subprocess.run([])`
  would raise before spawning anything; the `except` clause removes the
  workspace and re-raises, surfaced as a 500.  No child process is recorded.
* A run exceeding the 120-second timeout raises `subprocess.TimeoutExpired`
  after the child was spawned; the `except` clause removes the workspace and
  re-raises, surfaced as a 500.
* The MIME lookup uses the raw `to_format` (line 152), not its lowercase
  form. -/
def process_conversion (original_filename to_format temp_dir : String)
    (env : ExecEnv) : ConvResult × List Effect :=
  match (py_split original_filename '.').getLast? with
  | none =>
    (ConvResult.httpError 400 "El archivo no tiene extensión.", [])
  | some lastPart =>
    let from_format := py_lower lastPart
    let conversion_pair := (from_format, py_lower to_format)
    match matrixLookup conversion_pair with
    | none =>
      (ConvResult.httpError 400
        ("Conversión de \x27" ++ from_format ++ "\x27 a \x27" ++ to_format ++
          "\x27 no soportada."), [])
    | some tool =>
      let input_path := os_path_join temp_dir ("input." ++ from_format)
      if env.writeRaises then
        (ConvResult.httpError 500 "OSError",
         [Effect.mkdtemp temp_dir, Effect.rmtreeSync temp_dir])
      else
        match get_command tool input_path (py_lower to_format) temp_dir with
        | (_, none) =>
          (ConvResult.httpError 500 "ValueError",
           [Effect.mkdtemp temp_dir, Effect.writeFile input_path,
            Effect.rmtreeSync temp_dir])
        | (command, some output_path) =>
          if env.timesOut = true then
            (ConvResult.httpError 500 "TimeoutExpired",
             [Effect.mkdtemp temp_dir, Effect.writeFile input_path,
              Effect.runProcess command, Effect.rmtreeSync temp_dir])
          else if env.outputExists = false ∨ env.returncode ≠ 0 then
            let error_details := if env.stderr ≠ "" then env.stderr else env.stdout
            (ConvResult.httpError 500
              ("Error en la conversión. Herramienta: " ++ tool ++
                ". Detalles: " ++ error_details),
             [Effect.mkdtemp temp_dir, Effect.writeFile input_path,
              Effect.runProcess command, Effect.rmtreeSync temp_dir])
          else
            let output_mime_type :=
              (dict_get SUPPORTED_MIME_TYPES to_format).getD "application/octet-stream"
            let base_filename := os_path_splitext_base original_filename
            let final_output_filename := base_filename ++ "." ++ py_lower to_format
            (ConvResult.success output_path output_mime_type final_output_filename,
             [Effect.mkdtemp temp_dir, Effect.writeFile input_path,
              Effect.runProcess command, Effect.rmtreeDeferred temp_dir])

/-- Model of `convert_file_upload` (`src/main.py` lines 83-93,
`POST /convert`): calls `process_conversion` inside `try/except Exception`, so
any raised exception — including an `HTTPException` raised by
`process_conversion`, whose `str()` is `"<status>: <detail>"` — is re-raised
as a 500. -/
def convert_file_upload (filename to_format temp_dir : String) (env : ExecEnv) :
    ConvResult × List Effect :=
  match process_conversion filename to_format temp_dir env with
  | (ConvResult.success p m f, effs) => (ConvResult.success p m f, effs)
  | (ConvResult.httpError code detail, effs) =>
    (ConvResult.httpError 500
      ("Error al procesar el archivo subido: " ++ toString code ++ ": " ++ detail),
     effs)

/-- Outcome of the `httpx` fetch in `convert_from_url`: the response arrived
with a non-error status (carrying the URL path for filename extraction), or
`raise_for_status` raised `HTTPStatusError` with the upstream status code, or
the request itself failed with `RequestError`. -/
inductive FetchOutcome where
  | ok (urlPath : String)
  | statusError (statusCode : Nat) (text : String)
  | requestError (message : String)
  deriving DecidableEq

/-- Model of `convert_from_url` (`src/main.py` lines 96-116,
`POST /convert-from-url`).  An `HTTPStatusError` is surfaced with the upstream
response's own status code; a `RequestError` is surfaced as 400.
`HTTPException`s raised inside the `try` (empty filename, and everything out
of `process_conversion`) match neither `except` clause and propagate
unchanged. -/
def convert_from_url (fetch : FetchOutcome) (to_format temp_dir : String)
    (env : ExecEnv) : ConvResult × List Effect :=
  match fetch with
  | FetchOutcome.requestError msg =>
    (ConvResult.httpError 400 ("No se pudo acceder a la URL: " ++ msg), [])
  | FetchOutcome.statusError code text =>
    (ConvResult.httpError code ("Error al obtener el archivo desde la URL: " ++ text), [])
  | FetchOutcome.ok urlPath =>
    let original_filename := os_path_basename urlPath
    if original_filename = "" then
      (ConvResult.httpError 400 "No se pudo determinar el nombre del archivo desde la URL.", [])
    else
      process_conversion original_filename to_format temp_dir env

/-- Model of `shutil.rmtree(path)` with default arguments over a finite
filesystem (the list of existing directory trees): removes `path` when
present, raises `FileNotFoundError` when absent. -/
def shutil_rmtree (fs : List String) (path : String) : Except String (List String) :=
  if path ∈ fs then Except.ok (fs.filter (fun q => q ≠ path))
  else Except.error "FileNotFoundError"

/-- An environment in which the tool run succeeds and produces its output. -/
def envOk : ExecEnv :=
  { returncode := 0, stdout := "", stderr := "", timesOut := false,
    outputExists := true, writeRaises := false }

/-- An environment for a tool that exits 0 yet writes no output file. -/
def envSilentFail : ExecEnv :=
  { returncode := 0, stdout := "boom", stderr := "", timesOut := false,
    outputExists := false, writeRaises := false }

/-- Structural case analysis of `process_conversion`: every run falls into one
of six shapes — early 400 with no effects, staging failure, unknown-tool
failure, timeout, tool failure (non-zero exit or missing output), or
success. -/
theorem process_conversion_cases (fn tf td : String) (env : ExecEnv) :
    (∃ d, process_conversion fn tf td env = (ConvResult.httpError 400 d, [])) ∨
    (process_conversion fn tf td env =
      (ConvResult.httpError 500 "OSError",
       [Effect.mkdtemp td, Effect.rmtreeSync td])) ∨
    (∃ ip, process_conversion fn tf td env =
      (ConvResult.httpError 500 "ValueError",
       [Effect.mkdtemp td, Effect.writeFile ip, Effect.rmtreeSync td])) ∨
    (∃ ip cmd, env.timesOut = true ∧ process_conversion fn tf td env =
      (ConvResult.httpError 500 "TimeoutExpired",
       [Effect.mkdtemp td, Effect.writeFile ip, Effect.runProcess cmd,
        Effect.rmtreeSync td])) ∨
    (∃ tool ip cmd, (env.outputExists = false ∨ env.returncode ≠ 0) ∧
      process_conversion fn tf td env =
      (ConvResult.httpError 500
        ("Error en la conversión. Herramienta: " ++ tool ++ ". Detalles: " ++
          (if env.stderr ≠ "" then env.stderr else env.stdout)),
       [Effect.mkdtemp td, Effect.writeFile ip, Effect.runProcess cmd,
        Effect.rmtreeSync td])) ∨
    (∃ op ip cmd, env.outputExists = true ∧ env.returncode = 0 ∧
      process_conversion fn tf td env =
      (ConvResult.success op
        ((dict_get SUPPORTED_MIME_TYPES tf).getD "application/octet-stream")
        (os_path_splitext_base fn ++ "." ++ py_lower tf),
       [Effect.mkdtemp td, Effect.writeFile ip, Effect.runProcess cmd,
        Effect.rmtreeDeferred td])) := by
  simp only [process_conversion]
  split
  · exact Or.inl ⟨_, rfl⟩
  · split
    · exact Or.inl ⟨_, rfl⟩
    · split
      · exact Or.inr (Or.inl rfl)
      · split
        · exact Or.inr (Or.inr (Or.inl ⟨_, rfl⟩))
        · split
          · rename_i hto
            exact Or.inr (Or.inr (Or.inr (Or.inl ⟨_, _, hto, rfl⟩)))
          · split
            · rename_i hcond
              exact Or.inr (Or.inr (Or.inr (Or.inr (Or.inl ⟨_, _, _, hcond, rfl⟩))))
            · rename_i hcond
              push_neg at hcond
              refine Or.inr (Or.inr (Or.inr (Or.inr (Or.inr
                ⟨_, _, _, ?_, hcond.2, rfl⟩))))
              cases h : ExecEnv.outputExists env with
              | true => rfl
              | false => exact absurd h hcond.1

/-- Claim C1: whenever `process_conversion` creates a workspace, the workspace
is destroyed on every outcome — on failure it is removed synchronously, as the
final effect before the error propagates; on success a deferred removal is
registered to run after the response body has been delivered. -/
theorem C1_workspace_destroyed_on_every_outcome (fn tf td : String) (env : ExecEnv)
    (h : Effect.mkdtemp td ∈ (process_conversion fn tf td env).2) :
    (∃ s d, (process_conversion fn tf td env).1 = ConvResult.httpError s d ∧
      (process_conversion fn tf td env).2.getLast? = some (Effect.rmtreeSync td)) ∨
    (∃ p m f, (process_conversion fn tf td env).1 = ConvResult.success p m f ∧
      (process_conversion fn tf td env).2.getLast? = some (Effect.rmtreeDeferred td)) := by
  rcases process_conversion_cases fn tf td env with ⟨d, hq⟩ | hq | ⟨ip, hq⟩ |
    ⟨ip, cmd, hto, hq⟩ | ⟨tool, ip, cmd, hc, hq⟩ | ⟨op, ip, cmd, h1, h2, hq⟩
  · rw [hq] at h; simp at h
  · rw [hq]; exact Or.inl ⟨_, _, rfl, rfl⟩
  · rw [hq]; exact Or.inl ⟨_, _, rfl, rfl⟩
  · rw [hq]; exact Or.inl ⟨_, _, rfl, rfl⟩
  · rw [hq]; exact Or.inl ⟨_, _, rfl, rfl⟩
  · rw [hq]; exact Or.inr ⟨_, _, _, rfl, rfl⟩

/-- Witness for C1 at a concrete successful request. -/
theorem C1_witness :
    Effect.mkdtemp "/w" ∈ (process_conversion "a.docx" "pdf" "/w" envOk).2 ∧
    ((∃ s d, (process_conversion "a.docx" "pdf" "/w" envOk).1 = ConvResult.httpError s d ∧
      (process_conversion "a.docx" "pdf" "/w" envOk).2.getLast? = some (Effect.rmtreeSync "/w")) ∨
    (∃ p m f, (process_conversion "a.docx" "pdf" "/w" envOk).1 = ConvResult.success p m f ∧
      (process_conversion "a.docx" "pdf" "/w" envOk).2.getLast? = some (Effect.rmtreeDeferred "/w"))) :=
  ⟨by decide, C1_workspace_destroyed_on_every_outcome "a.docx" "pdf" "/w" envOk (by decide)⟩

/-- Claim C2 (code behaviour at the failing input): a filename with no `.` is
not rejected with the MissingExtension error.  `"pdf".split('.')[-1]` is
`"pdf"` itself, so `pdf → txt` with the dotless filename `"pdf"` proceeds to
create a workspace and succeeds, and `"README" → pdf` yields the
UnsupportedPair detail, not the missing-extension detail. -/
theorem C2_dotless_filename_not_missing_extension :
    (process_conversion "pdf" "txt" "/w" envOk).1 =
      ConvResult.success "/w/output.txt" "text/plain" "pdf.txt" ∧
    Effect.mkdtemp "/w" ∈ (process_conversion "pdf" "txt" "/w" envOk).2 ∧
    (process_conversion "README" "pdf" "/w" envOk).1 =
      ConvResult.httpError 400 "Conversión de \x27readme\x27 a \x27pdf\x27 no soportada." := by
  decide

/-- Claim C3 (code behaviour at the failing input): an unsupported pair
reaching the `/convert` upload endpoint is surfaced as 500, not 400 — the
endpoint's blanket exception handler swallows the 400 raised by
`process_conversion` — although no workspace is created and no child process
is spawned. -/
theorem C3_unsupported_pair_is_500_via_upload :
    (process_conversion "a.xyz" "pdf" "/w" envOk).1 =
      ConvResult.httpError 400 "Conversión de \x27xyz\x27 a \x27pdf\x27 no soportada." ∧
    (convert_file_upload "a.xyz" "pdf" "/w" envOk).1 =
      ConvResult.httpError 500
        "Error al procesar el archivo subido: 400: Conversión de \x27xyz\x27 a \x27pdf\x27 no soportada." ∧
    (convert_file_upload "a.xyz" "pdf" "/w" envOk).2 = [] := by
  decide

/-- Claim C4 (code behaviour at the failing input): for the libreoffice tool
the command builder's expected output path is `output.<target>` inside the
workspace, not the input's base name with the target extension
(`input.<target>`), so the two naming conventions disagree. -/
theorem C4_libreoffice_expected_output_mismatch :
    (get_command "libreoffice" "/w/input.docx" "pdf" "/w").2 = some "/w/output.pdf" ∧
    os_path_join "/w" (os_path_splitext_base "input.docx" ++ ".pdf") = "/w/input.pdf" ∧
    ("/w/output.pdf" : String) ≠ "/w/input.pdf" := by
  decide

/-- Claim C5: whenever the child process completes (no timeout) with exit code
0 but the expected output path does not exist afterwards, any request that
actually invoked a tool yields an HTTP 500 failure whose diagnostic comes from
captured stderr (or stdout when stderr is empty) — never a success
response. -/
theorem C5_exit_zero_missing_output_never_success (fn tf td : String) (env : ExecEnv)
    (_hrc : env.returncode = 0) (hex : env.outputExists = false)
    (hto : env.timesOut = false)
    (hrun : ∃ c, Effect.runProcess c ∈ (process_conversion fn tf td env).2) :
    ∃ tool, (process_conversion fn tf td env).1 =
      ConvResult.httpError 500
        ("Error en la conversión. Herramienta: " ++ tool ++ ". Detalles: " ++
          (if env.stderr ≠ "" then env.stderr else env.stdout)) := by
  rcases process_conversion_cases fn tf td env with ⟨d, hq⟩ | hq | ⟨ip, hq⟩ |
    ⟨ip, cmd, hto2, hq⟩ | ⟨tool, ip, cmd, hc, hq⟩ | ⟨op, ip, cmd, h1, h2, hq⟩
  · rcases hrun with ⟨c, hm⟩; rw [hq] at hm; simp at hm
  · rcases hrun with ⟨c, hm⟩; rw [hq] at hm; simp at hm
  · rcases hrun with ⟨c, hm⟩; rw [hq] at hm; simp at hm
  · rw [hto] at hto2; cases hto2
  · exact ⟨tool, by rw [hq]⟩
  · rw [h1] at hex; cases hex

/-- Witness for C5 at a concrete request with a silently failing tool. -/
theorem C5_witness :
    (envSilentFail.returncode = 0 ∧ envSilentFail.outputExists = false ∧
      envSilentFail.timesOut = false ∧
      Effect.runProcess
        ["libreoffice", "--headless", "--convert-to", "pdf", "--outdir", "/w", "/w/input.docx"] ∈
        (process_conversion "a.docx" "pdf" "/w" envSilentFail).2) ∧
    (∃ tool, (process_conversion "a.docx" "pdf" "/w" envSilentFail).1 =
      ConvResult.httpError 500
        ("Error en la conversión. Herramienta: " ++ tool ++ ". Detalles: " ++
          (if envSilentFail.stderr ≠ "" then envSilentFail.stderr else envSilentFail.stdout))) :=
  ⟨⟨rfl, rfl, rfl, by decide⟩,
   C5_exit_zero_missing_output_never_success "a.docx" "pdf" "/w" envSilentFail rfl rfl rfl
     ⟨["libreoffice", "--headless", "--convert-to", "pdf", "--outdir", "/w", "/w/input.docx"],
      by decide⟩⟩

/-- Claim C6 (counterexample): workspace destruction is `shutil.rmtree` with
default arguments, which is not idempotent — the first call on an existing
workspace succeeds, a second call on the already-removed path raises
`FileNotFoundError` instead of being a no-op. -/
theorem C6_counterexample_rmtree_raises_when_absent :
    shutil_rmtree ["/w"] "/w" = Except.ok [] ∧
    shutil_rmtree [] "/w" = Except.error "FileNotFoundError" :=
  ⟨rfl, rfl⟩

/-- Claim C6 (amended): destruction via `shutil.rmtree` raises on an
already-removed path, but `process_conversion` never destroys the same
workspace twice — every control path performs at most one removal (synchronous
or deferred) of the workspace. -/
theorem C6_amended_destroy_at_most_once (fn tf td : String) (env : ExecEnv) :
    shutil_rmtree [] td = Except.error "FileNotFoundError" ∧
    (process_conversion fn tf td env).2.countP
      (fun e => decide (e = Effect.rmtreeSync td ∨ e = Effect.rmtreeDeferred td)) ≤ 1 := by
  refine ⟨by simp [shutil_rmtree], ?_⟩
  rcases process_conversion_cases fn tf td env with ⟨d, hq⟩ | hq | ⟨ip, hq⟩ |
    ⟨ip, cmd, hto, hq⟩ | ⟨tool, ip, cmd, hc, hq⟩ | ⟨op, ip, cmd, h1, h2, hq⟩ <;>
    rw [hq] <;> simp [List.countP_cons]

/-- Claim C7 (counterexample): a URL fetch whose response has an error status
is surfaced with the upstream status code — here 503 — not with 400. -/
theorem C7_counterexample_upstream_status_passthrough :
    (convert_from_url (FetchOutcome.statusError 503 "unavailable") "pdf" "/w" envOk).1 =
      ConvResult.httpError 503 "Error al obtener el archivo desde la URL: unavailable" ∧
    (503 : Nat) ≠ 400 := by
  decide

/-- Claim C7 (amended): a failed URL request (connection error) is surfaced as
HTTP 400, while a fetched response with an error status is surfaced with the
upstream response's own status code. -/
theorem C7_amended_fetch_failure_statuses (msg txt tf td : String) (c : Nat)
    (env : ExecEnv) :
    (convert_from_url (FetchOutcome.requestError msg) tf td env).1 =
      ConvResult.httpError 400 ("No se pudo acceder a la URL: " ++ msg) ∧
    (convert_from_url (FetchOutcome.statusError c txt) tf td env).1 =
      ConvResult.httpError c ("Error al obtener el archivo desde la URL: " ++ txt) :=
  ⟨rfl, rfl⟩

/-- Claim C8 (counterexample): with filename `"A.DOCX"` and target format
`"PDF"`, the registry lookup succeeds case-insensitively on both sides (the
request converts), and `pdf` is registered in the MIME table under the
lowercased form, yet the response media type is the octet-stream fallback, not
`application/pdf` — the MIME lookup uses the raw target string. -/
theorem C8_counterexample_mime_lookup_case_sensitive :
    dict_get SUPPORTED_MIME_TYPES (py_lower "PDF") = some "application/pdf" ∧
    (process_conversion "A.DOCX" "PDF" "/w" envOk).1 =
      ConvResult.success "/w/output.pdf" "application/octet-stream" "A.pdf" ∧
    ("application/octet-stream" : String) ≠ "application/pdf" := by
  decide

/-- Claim C8 (amended): the conversion registry lookup is case-insensitive on
both extensions — two filenames whose extracted extensions have the same
lowercase form, together with two target strings with the same lowercase form,
drive the request through identical effects (same workspace, staged input
path, spawned command and cleanup) — but the response media type on success is
the case-sensitive lookup of the raw target string in the MIME table, with
octet-stream fallback. -/
theorem C8_amended_registry_insensitive_mime_raw (fn fn' tf tf' td : String)
    (env : ExecEnv)
    (hsrc : ((py_split fn '.').getLast?).map py_lower =
      ((py_split fn' '.').getLast?).map py_lower)
    (htgt : py_lower tf = py_lower tf') :
    (process_conversion fn tf td env).2 = (process_conversion fn' tf' td env).2 ∧
    (∀ p m f, (process_conversion fn tf td env).1 = ConvResult.success p m f →
      m = (dict_get SUPPORTED_MIME_TYPES tf).getD "application/octet-stream") := by
  constructor
  · cases hL : (py_split fn '.').getLast? with
    | none =>
      cases hL' : (py_split fn' '.').getLast? with
      | none => simp [process_conversion, hL, hL']
      | some b => rw [hL, hL'] at hsrc; simp at hsrc
    | some a =>
      cases hL' : (py_split fn' '.').getLast? with
      | none => rw [hL, hL'] at hsrc; simp at hsrc
      | some b =>
        have hab : py_lower a = py_lower b := by
          rw [hL, hL'] at hsrc
          simpa using hsrc
        simp only [process_conversion, hL, hL', hab, htgt]
        split
        · rfl
        · split
          · rfl
          · split
            · rfl
            · split
              · rfl
              · split
                · rfl
                · rfl
  · intro p m f hs
    rcases process_conversion_cases fn tf td env with ⟨d, hq⟩ | hq | ⟨ip, hq⟩ |
      ⟨ip, cmd, hto, hq⟩ | ⟨tool, ip, cmd, hc, hq⟩ | ⟨op, ip, cmd, h1, h2, hq⟩
    · rw [hq] at hs; simp at hs
    · rw [hq] at hs; simp at hs
    · rw [hq] at hs; simp at hs
    · rw [hq] at hs; simp at hs
    · rw [hq] at hs; simp at hs
    · rw [hq] at hs
      injection hs with hp hm hf
      exact hm.symm

/-- Witness for C8 at concrete filenames `"A.DOCX"` / `"a.docx"` and target
strings `"PDF"` / `"pdf"`. -/
theorem C8_witness :
    (((py_split "A.DOCX" '.').getLast?).map py_lower =
      ((py_split "a.docx" '.').getLast?).map py_lower ∧
     py_lower "PDF" = py_lower "pdf") ∧
    ((process_conversion "A.DOCX" "PDF" "/w" envOk).2 =
      (process_conversion "a.docx" "pdf" "/w" envOk).2 ∧
    (∀ p m f, (process_conversion "A.DOCX" "PDF" "/w" envOk).1 = ConvResult.success p m f →
      m = (dict_get SUPPORTED_MIME_TYPES "PDF").getD "application/octet-stream")) :=
  ⟨⟨by decide, by decide⟩,
   C8_amended_registry_insensitive_mime_raw "A.DOCX" "a.docx" "PDF" "pdf" "/w" envOk
     (by decide) (by decide)⟩

/-- Claim C9: the imagemagick command passes the source and destination paths
directly in the argv — the destination is the final argument and equals the
expected output path — includes a rendering density parameter, and the input
argument is the input path with the first-page selector `[0]` appended exactly
when the input path ends in `.pdf`. -/
theorem C9_imagemagick_argv_paths_density_page_selector (ip tf td : String) :
    "-density" ∈ (get_command "imagemagick" ip tf td).1 ∧
    (get_command "imagemagick" ip tf td).2 = some (os_path_join td ("output." ++ tf)) ∧
    (get_command "imagemagick" ip tf td).1.getLast? =
      some (os_path_join td ("output." ++ tf)) ∧
    (if py_endswith ip ".pdf" then ip ++ "[0]" else ip) ∈
      (get_command "imagemagick" ip tf td).1 := by
  cases hpdf : py_endswith ip ".pdf" <;> simp [get_command, hpdf]

/-- Claim C10: every tool named in the conversion matrix is one of
libreoffice, imagemagick, pdftotext, so for any pair that passes the registry
lookup the command builder returns a non-empty argv and a non-null expected
output path — the unknown-tool branch is unreachable. -/
theorem C10_matrix_tools_known (s t tool : String)
    (h : matrixLookup (s, t) = some tool) :
    (tool = "libreoffice" ∨ tool = "imagemagick" ∨ tool = "pdftotext") ∧
    ∀ ip tf td, (get_command tool ip tf td).1 ≠ [] ∧
      (get_command tool ip tf td).2 ≠ none := by
  have hall : ∀ x ∈ CONVERSION_MATRIX,
      x.2 = "libreoffice" ∨ x.2 = "imagemagick" ∨ x.2 = "pdftotext" := by decide
  rcases Option.map_eq_some'.mp h with ⟨e, hf, he⟩
  have h3 := hall e (List.mem_of_find?_eq_some hf)
  subst he
  refine ⟨h3, ?_⟩
  intro ip tf td
  rcases h3 with h3 | h3 | h3 <;> rw [h3] <;> constructor <;> simp [get_command]

/-- Witness for C10 at the concrete pair `(docx, pdf)`. -/
theorem C10_witness :
    matrixLookup ("docx", "pdf") = some "libreoffice" ∧
    ((get_command "libreoffice" "/w/input.docx" "pdf" "/w").1 ≠ [] ∧
     (get_command "libreoffice" "/w/input.docx" "pdf" "/w").2 ≠ none) :=
  ⟨by decide,
   (C10_matrix_tools_known "docx" "pdf" "libreoffice" (by decide)).2 "/w/input.docx" "pdf" "/w"⟩

end ConverterService
